import Mathlib

/-!
Shallow embedding of the balance-synchronizer and recurrence-expander logic of
the personal-finance application, taken from `app/models/transaccion.py` and
`app/models/cuenta.py`.

Monetary amounts (`Decimal` columns `Numeric(15, 2)` in the source, i.e.
exact decimals with two fractional digits) are modelled as integer numbers
of cents (`Int`), the exact resolution of the column type: `100.00` is
`10000`.  Calendar dates (`datetime.date`) are
modelled as triples year/month/day with Python's day-based `timedelta`
addition re-implemented as iterated successor-day.  The SQLAlchemy event
listeners (`after_insert`, `after_delete`, `after_update`) are modelled as
explicit state transformers on a single account plus its ledger of
transactions; a raised-and-rolled-back exception is modelled as an
`Except.error` result that leaves the state unchanged.
-/

deriving instance DecidableEq for Except

namespace Finanzas

/-- Account types of `Cuenta.tipo` (enum `tipo_cuenta_enum`). -/
inductive TipoCuenta where
  | efectivo
  | banco
  | tarjeta_credito
  | tarjeta_debito
  | billetera_digital
deriving DecidableEq

/-- Transaction types of `Transaccion.tipo` (enum `tipo_transaccion_enum`). -/
inductive TipoTransaccion where
  | ingreso
  | egreso
deriving DecidableEq

/-- Recurrence frequencies of `Transaccion.frecuencia_recurrencia`
(enum `frecuencia_enum`); the column is nullable, so it appears below as
`Option Frecuencia`.  The validator `validate_recurrente` rejects every
string outside these five, so no further values are representable. -/
inductive Frecuencia where
  | diaria
  | semanal
  | quincenal
  | mensual
  | anual
deriving DecidableEq

/-- A calendar date, as Python's `datetime.date`. -/
structure Fecha where
  anio : Nat
  mes : Nat
  dia : Nat
deriving DecidableEq

/-- Python's `calendar.isleap`. -/
def isleap (anio : Nat) : Bool :=
  (anio % 4 == 0 && anio % 100 != 0) || (anio % 400 == 0)

/-- Number of days of a month: `calendar.monthrange(anio, mes)[1]`. -/
def monthrange (anio mes : Nat) : Nat :=
  if mes = 2 then (if isleap anio then 29 else 28)
  else if mes = 4 ∨ mes = 6 ∨ mes = 9 ∨ mes = 11 then 30
  else 31

/-- A `Fecha` is valid when the month and the day are in range. -/
def Fecha.valida (d : Fecha) : Prop :=
  1 ≤ d.mes ∧ d.mes ≤ 12 ∧ 1 ≤ d.dia ∧ d.dia ≤ monthrange d.anio d.mes

instance (d : Fecha) : Decidable d.valida := by
  unfold Fecha.valida; infer_instance

/-- Successor day in the calendar. -/
def diaSiguiente (d : Fecha) : Fecha :=
  if d.dia < monthrange d.anio d.mes then ⟨d.anio, d.mes, d.dia + 1⟩
  else if d.mes < 12 then ⟨d.anio, d.mes + 1, 1⟩
  else ⟨d.anio + 1, 1, 1⟩

/-- Python's `date + timedelta(days = n)` as iterated successor day. -/
def addDays (d : Fecha) : Nat → Fecha
  | 0 => d
  | n + 1 => diaSiguiente (addDays d n)

/-- Python's lexicographic `date` comparison `a < b`. -/
def fechaLt (a b : Fecha) : Bool :=
  if a.anio ≠ b.anio then decide (a.anio < b.anio)
  else if a.mes ≠ b.mes then decide (a.mes < b.mes)
  else decide (a.dia < b.dia)

/-- `Transaccion._calcular_proxima_fecha`, as a function of the recurrence
frequency and the transaction date.  The final `none` case is the source's
fall-through `return self.fecha_transaccion`. -/
def calcular_proxima_fecha (frecuencia : Option Frecuencia) (fecha : Fecha) : Fecha :=
  match frecuencia with
  | some .diaria => addDays fecha 1
  | some .semanal => addDays fecha 7
  | some .quincenal => addDays fecha 15
  | some .mensual =>
      let anio := if fecha.mes = 12 then fecha.anio + 1 else fecha.anio
      let mes := if fecha.mes = 12 then 1 else fecha.mes + 1
      let ultimo_dia := monthrange anio mes
      ⟨anio, mes, min fecha.dia ultimo_dia⟩
  | some .anual =>
      let anio := fecha.anio + 1
      if fecha.mes = 2 ∧ fecha.dia = 29 ∧ isleap anio = false then ⟨anio, 2, 28⟩
      else ⟨anio, fecha.mes, fecha.dia⟩
  | none => fecha

/-- Upper bound of `validate_monto`: `Decimal('999999999999.99')`, in cents. -/
def montoLimite : Int := 99999999999999

/-- `Transaccion.validate_monto`: the amount is mandatory, strictly positive,
and at most `montoLimite`; on success the amount itself is returned. -/
def validate_monto (monto : Option Int) : Except String Int :=
  match monto with
  | none => Except.error "El monto es obligatorio"
  | some m =>
      if m ≤ 0 then Except.error "El monto debe ser mayor a cero"
      else if montoLimite < m then Except.error "El monto excede el limite permitido"
      else Except.ok m

/-- The columns of the `transacciones` table used by the balance and
recurrence logic (audit columns `editada`, `num_ediciones` and the
registration timestamps are bookkeeping and are omitted).  `id` is the
primary key handed out by the store.  Time of day is an opaque payload
(seconds) that is only ever copied. -/
structure Transaccion where
  id : Nat
  usuario_id : Nat
  cuenta_id : Nat
  categoria_id : Nat
  tipo : TipoTransaccion
  monto : Int
  descripcion : Option String
  fecha_transaccion : Fecha
  hora_transaccion : Nat
  recurrente : Bool
  frecuencia_recurrencia : Option Frecuencia
  fecha_fin_recurrencia : Option Fecha
  transaccion_padre_id : Option Nat
  etiquetas : Option String
  notas : Option String
deriving DecidableEq

/-- `Transaccion.es_recurrente`: flagged recurrent and a frequency is set. -/
def Transaccion.es_recurrente (t : Transaccion) : Bool :=
  t.recurrente && t.frecuencia_recurrencia.isSome

/-- The columns of the `cuentas` table used by the balance logic. -/
structure Cuenta where
  tipo : TipoCuenta
  saldo_inicial : Int
  saldo_actual : Int
deriving DecidableEq

/-- `Cuenta.tiene_saldo_suficiente`: credit cards always pass; every other
type requires `saldo_actual >= monto`. -/
def tiene_saldo_suficiente (c : Cuenta) (monto : Int) : Bool :=
  if c.tipo = TipoCuenta.tarjeta_credito then true
  else decide (monto ≤ c.saldo_actual)

/-- `Cuenta.actualizar_saldo`: add the amount on an income; on an expense,
first check `tiene_saldo_suficiente` and raise `ValueError` (here
`Except.error`, the session having been rolled back so the account is
unchanged) when the check fails, otherwise subtract. -/
def actualizar_saldo (c : Cuenta) (monto : Int) (tipo : TipoTransaccion) : Except String Cuenta :=
  match tipo with
  | .ingreso => Except.ok { c with saldo_actual := c.saldo_actual + monto }
  | .egreso =>
      if tiene_saldo_suficiente c monto then
        Except.ok { c with saldo_actual := c.saldo_actual - monto }
      else
        Except.error "Saldo insuficiente"

example : actualizar_saldo ⟨TipoCuenta.banco, 10000, 10000⟩ 15000 .egreso =
    Except.error "Saldo insuficiente" := by decide
example : actualizar_saldo ⟨TipoCuenta.tarjeta_credito, 10000, 10000⟩ 15000 .egreso =
    Except.ok ⟨TipoCuenta.tarjeta_credito, 10000, -5000⟩ := by decide
example : validate_monto (some 5000) = Except.ok 5000 := by decide
example : validate_monto (some 0) = Except.error "El monto debe ser mayor a cero" := by decide

/-- Whether an `Except` result is a success; the source's callers observe a
raised exception exactly when this is `false`. -/
def esOk {ε α : Type} : Except ε α → Bool
  | .ok _ => true
  | .error _ => false

/-- One account together with the ledger of the transactions that reference
it (the relationship `Cuenta.transacciones`). -/
structure Estado where
  cuenta : Cuenta
  ledger : List Transaccion
deriving DecidableEq

/-- Sum of the amounts of the transactions of the given type, as the queries
`Cuenta.get_ingresos_totales` / `Cuenta.get_egresos_totales` compute it. -/
def sumaMontos (tipo : TipoTransaccion) (l : List Transaccion) : Int :=
  ((l.filter fun t => decide (t.tipo = tipo)).map fun t => t.monto).sum

/-- The balance invariant of the account, `Cuenta.calcular_balance` compared
with the cached column: `saldo_actual = saldo_inicial + ingresos - egresos`. -/
def Invariante (s : Estado) : Prop :=
  s.cuenta.saldo_actual =
    s.cuenta.saldo_inicial + sumaMontos .ingreso s.ledger - sumaMontos .egreso s.ledger

instance (s : Estado) : Decidable (Invariante s) := by
  unfold Invariante; infer_instance

/-- Creation of a transaction followed by the `after_insert` listener
`actualizar_saldo_insert`: the constructor validates the amount
(`validate_monto`), the listener adds the amount for an income and subtracts
it for an expense.  Re-assigning `saldo_actual` runs `Cuenta.validate_saldo`,
which raises `ValueError` when the new balance is negative and the account is
not a credit card; the listener's exception handler rolls the session back,
so on any error nothing is committed and the state is unchanged. -/
def opInsert (t : Transaccion) (s : Estado) : Except String Estado :=
  match validate_monto (some t.monto) with
  | .error e => .error e
  | .ok _ =>
      let nuevoSaldo :=
        match t.tipo with
        | .ingreso => s.cuenta.saldo_actual + t.monto
        | .egreso => s.cuenta.saldo_actual - t.monto
      if s.cuenta.tipo ≠ TipoCuenta.tarjeta_credito ∧ nuevoSaldo < 0 then
        .error "El saldo actual no puede ser negativo para este tipo de cuenta"
      else
        .ok { cuenta := { s.cuenta with saldo_actual := nuevoSaldo },
              ledger := t :: s.ledger }

/-- Deletion of the transaction with the given id followed by the
`after_delete` listener `actualizar_saldo_delete`, which reverts the amount;
as for the insert, a `validate_saldo` failure rolls everything back. -/
def opDelete (tid : Nat) (s : Estado) : Except String Estado :=
  match s.ledger.find? (fun t => decide (t.id = tid)) with
  | none => .error "transaccion no encontrada"
  | some t =>
      let nuevoSaldo :=
        match t.tipo with
        | .ingreso => s.cuenta.saldo_actual - t.monto
        | .egreso => s.cuenta.saldo_actual + t.monto
      if s.cuenta.tipo ≠ TipoCuenta.tarjeta_credito ∧ nuevoSaldo < 0 then
        .error "El saldo actual no puede ser negativo para este tipo de cuenta"
      else
        .ok { cuenta := { s.cuenta with saldo_actual := nuevoSaldo },
              ledger := s.ledger.eraseP (fun t => decide (t.id = tid)) }

/-- Modification of the transaction with the given id: the new amount runs
through `validate_monto`, and then the `before_update` listener
`registrar_edicion` (audit fields only) and the `after_update` listener
`actualizar_saldo_update` run.  The latter does not touch the account: when
the amount, type or account changed it only logs that recalculating the
balance is recommended. -/
def opUpdate (tid : Nat) (nuevo : Transaccion) (s : Estado) : Except String Estado :=
  match validate_monto (some nuevo.monto) with
  | .error e => .error e
  | .ok _ =>
      match s.ledger.find? (fun t => decide (t.id = tid)) with
      | none => .error "transaccion no encontrada"
      | some _ =>
          .ok { cuenta := s.cuenta,
                ledger := s.ledger.map
                  (fun t => if t.id = tid then { nuevo with id := tid } else t) }

/-- The three mutations of the transaction ledger. -/
inductive Op where
  | crear (t : Transaccion)
  | modificar (tid : Nat) (nuevo : Transaccion)
  | eliminar (tid : Nat)

/-- Dispatch of an operation to its listener chain. -/
def aplicarOp (op : Op) (s : Estado) : Except String Estado :=
  match op with
  | .crear t => opInsert t s
  | .modificar tid nuevo => opUpdate tid nuevo s
  | .eliminar tid => opDelete tid s

/-- Run one operation; a failure leaves the state as it was (the enclosing
unit of work rolled back). -/
def paso (s : Estado) (op : Op) : Estado :=
  match aplicarOp op s with
  | .ok s2 => s2
  | .error _ => s

/-- Run a sequence of operations. -/
def ejecutar (s : Estado) : List Op → Estado
  | [] => s
  | op :: ops => ejecutar (paso s op) ops

/-- An operation is balance-safe in a state when it is a create or a delete,
or a modification that does not change the amount or the type of any ledger
transaction carrying the modified id. -/
def OpSegura (s : Estado) : Op → Prop
  | .crear _ => True
  | .eliminar _ => True
  | .modificar tid nuevo =>
      ∀ t ∈ s.ledger, t.id = tid → t.monto = nuevo.monto ∧ t.tipo = nuevo.tipo

/-- A sequence of operations each of which is balance-safe in the state it
runs in. -/
inductive SecuenciaSegura : Estado → List Op → Prop
  | nil (s : Estado) : SecuenciaSegura s []
  | cons (s : Estado) (op : Op) (ops : List Op) :
      OpSegura s op → SecuenciaSegura (paso s op) ops → SecuenciaSegura s (op :: ops)

/-- Modelled from the spec: `on_update(old, new) = apply(old, -1)` then
`apply(new, +1)`, so the balance moves by the difference of the signed
amounts.  This is the balance the specification expects after an update; the
source's `actualizar_saldo_update` is compared against it. -/
def on_update_spec (saldo : Int) (viejo nuevo : Transaccion) : Int :=
  (saldo - (match viejo.tipo with | .ingreso => viejo.monto | .egreso => -viejo.monto))
    + (match nuevo.tipo with | .ingreso => nuevo.monto | .egreso => -nuevo.monto)

/-- The transaction store as the recurrence expander sees it: the rows of
`transacciones` and the next primary key the insert would hand out. -/
structure EstadoRec where
  transacciones : List Transaccion
  nextId : Nat
deriving DecidableEq

/-- The end-of-recurrence test of `generar_proxima_recurrencia`:
`self.fecha_fin_recurrencia and proxima_fecha > self.fecha_fin_recurrencia`. -/
def recurrenciaFinalizada (t : Transaccion) : Bool :=
  match t.fecha_fin_recurrencia with
  | some fin => fechaLt fin (calcular_proxima_fecha t.frecuencia_recurrencia t.fecha_transaccion)
  | none => false

/-- The child transaction built by `Transaccion.generar_proxima_recurrencia`:
the keyword arguments of the `Transaccion(...)` constructor call.  Fields not
passed there (`fecha_fin_recurrencia`, `comprobante_url`) default to null,
and `notas` is set to a provenance note, not copied. -/
def transaccionHija (t : Transaccion) (proxima : Fecha) (nid : Nat) : Transaccion :=
  { id := nid
    usuario_id := t.usuario_id
    cuenta_id := t.cuenta_id
    categoria_id := t.categoria_id
    tipo := t.tipo
    monto := t.monto
    descripcion := t.descripcion
    fecha_transaccion := proxima
    hora_transaccion := t.hora_transaccion
    recurrente := false
    frecuencia_recurrencia := none
    fecha_fin_recurrencia := none
    transaccion_padre_id := some t.id
    etiquetas := t.etiquetas
    notas := some ("Generada automaticamente desde recurrencia " ++ toString t.id) }

/-- `Transaccion.generar_proxima_recurrencia`.  `persistOk` models whether
`db.session.add` plus `commit` succeed.  A non-recurring template and a
finished recurrence both return `None` without touching the store; a
persistence failure is caught inside the method, the session is rolled back,
the error is logged, and `None` is returned — the template itself is never
mutated.  The `Except` layer records whether an exception escapes to the
caller: no branch produces `Except.error`. -/
def generar_proxima_recurrencia (persistOk : Bool) (t : Transaccion) (st : EstadoRec) :
    Except String (Option Transaccion) × EstadoRec :=
  if t.es_recurrente = false then (Except.ok none, st)
  else if recurrenciaFinalizada t then (Except.ok none, st)
  else
    let nueva :=
      transaccionHija t (calcular_proxima_fecha t.frecuencia_recurrencia t.fecha_transaccion)
        st.nextId
    if persistOk then
      (Except.ok (some nueva), ⟨nueva :: st.transacciones, st.nextId + 1⟩)
    else
      (Except.ok none, st)

section Fixtures

/-- A plain income of 100.00 on a bank account, used as concrete input. -/
def tIngreso100 : Transaccion :=
  { id := 1, usuario_id := 1, cuenta_id := 1, categoria_id := 1,
    tipo := .ingreso, monto := 10000, descripcion := none,
    fecha_transaccion := ⟨2025, 1, 15⟩, hora_transaccion := 0,
    recurrente := false, frecuencia_recurrencia := none,
    fecha_fin_recurrencia := none, transaccion_padre_id := none,
    etiquetas := none, notas := none }

/-- The same transaction with its amount edited down to 50.00. -/
def tIngreso50 : Transaccion := { tIngreso100 with monto := 5000 }

/-- A bank account opened with balance zero and an empty ledger. -/
def estadoBanco0 : Estado := ⟨⟨TipoCuenta.banco, 0, 0⟩, []⟩

/-- The bank account right after `tIngreso100` was inserted. -/
def estadoBanco1 : Estado := ⟨⟨TipoCuenta.banco, 0, 10000⟩, [tIngreso100]⟩

/-- A monthly recurring template dated Jan 31, 2025, without an end date. -/
def tmplMensual : Transaccion :=
  { tIngreso100 with
    id := 1,
    recurrente := true,
    frecuencia_recurrencia := some .mensual,
    fecha_transaccion := ⟨2025, 1, 31⟩,
    notas := some "notas del usuario" }

/-- A template flagged recurrent whose frequency is null (the validator
`validate_recurrente` only logs a warning for this, so it is storable). -/
def tmplSinFrecuencia : Transaccion := { tmplMensual with frecuencia_recurrencia := none }

/-- A store holding just the monthly template. -/
def estadoRec0 : EstadoRec := ⟨[tmplMensual], 2⟩

end Fixtures

section LemasDeSuma

theorem sumaMontos_cons (tipo : TipoTransaccion) (t : Transaccion) (l : List Transaccion) :
    sumaMontos tipo (t :: l) = (if t.tipo = tipo then t.monto else 0) + sumaMontos tipo l := by
  by_cases h : t.tipo = tipo <;> simp [sumaMontos, h, List.filter_cons]

theorem sumaMontos_eraseP (tipo : TipoTransaccion) (p : Transaccion → Bool)
    (l : List Transaccion) (t : Transaccion) (h : l.find? p = some t) :
    sumaMontos tipo (l.eraseP p) + (if t.tipo = tipo then t.monto else 0) = sumaMontos tipo l := by
  induction l with
  | nil => simp at h
  | cons a l ih =>
      by_cases hpa : p a
      · rw [List.find?_cons_of_pos _ hpa] at h
        cases h
        rw [List.eraseP_cons_of_pos hpa, sumaMontos_cons]
        omega
      · rw [List.find?_cons_of_neg _ hpa] at h
        rw [List.eraseP_cons_of_neg hpa, sumaMontos_cons, sumaMontos_cons]
        have := ih h
        omega

theorem sumaMontos_map_congr (tipo : TipoTransaccion) (f : Transaccion → Transaccion)
    (l : List Transaccion) (h : ∀ t ∈ l, (f t).tipo = t.tipo ∧ (f t).monto = t.monto) :
    sumaMontos tipo (l.map f) = sumaMontos tipo l := by
  induction l with
  | nil => rfl
  | cons a l ih =>
      rw [List.map_cons, sumaMontos_cons, sumaMontos_cons,
        (h a (List.mem_cons_self a l)).1, (h a (List.mem_cons_self a l)).2,
        ih fun t ht => h t (List.mem_cons_of_mem a ht)]

end LemasDeSuma

section LemasDeCalendario

theorem monthrange_ge_28 (anio mes : Nat) : 28 ≤ monthrange anio mes := by
  unfold monthrange; split_ifs <;> norm_num

theorem monthrange_feb (anio : Nat) : monthrange anio 2 = if isleap anio then 29 else 28 := by
  unfold monthrange; simp

theorem monthrange_indep (a b mes : Nat) (h : mes ≠ 2) :
    monthrange a mes = monthrange b mes := by
  unfold monthrange; simp [h]

end LemasDeCalendario

/-- C10: `validate_monto` rejects a missing amount, every amount that is not
strictly positive, and every amount above 999999999999.99 (here
`montoLimite`, in cents), and accepts exactly the rest unchanged — so every
stored amount `v` satisfies `0 < v` and `v ≤ montoLimite`. -/
theorem c10_montos_acotados (m : Option Int) :
    ((∃ e, validate_monto m = Except.error e) ↔
      m = none ∨ ∃ q, m = some q ∧ (q ≤ 0 ∨ montoLimite < q)) ∧
    (∀ v, validate_monto m = Except.ok v → m = some v ∧ 0 < v ∧ v ≤ montoLimite) := by
  constructor
  · cases m with
    | none => simp [validate_monto]
    | some q =>
        by_cases h1 : q ≤ 0
        · simp [validate_monto, h1]
        · by_cases h2 : montoLimite < q <;> simp [validate_monto, h1, h2]
  · intro v hv
    cases m with
    | none => simp [validate_monto] at hv
    | some q =>
        by_cases h1 : q ≤ 0
        · simp [validate_monto, h1] at hv
        · by_cases h2 : montoLimite < q
          · simp [validate_monto, h1, h2] at hv
          · simp [validate_monto, h1, h2] at hv
            subst hv
            exact ⟨rfl, by omega, by omega⟩

/-- C10 witness: the amount 50.00 (5000 cents) is accepted and is inside the
bounds. -/
theorem c10_montos_acotados_witness :
    some (5000 : Int) = some 5000 ∧ (0 : Int) < 5000 ∧ (5000 : Int) ≤ montoLimite :=
  (c10_montos_acotados (some 5000)).2 5000 (by decide)

/-- C2: with balance 100.00 (10000 cents), an expense of 150.00 on a
non-credit-card account raises the insufficient-funds `ValueError` and the
rolled-back session leaves the balance unchanged, while the same expense on
a credit-card account succeeds with balance -50.00.  The same happens on the
committed-insert path `opInsert`, where `validate_saldo` rejects the
negative balance for the non-credit-card account. -/
theorem c2_fondos_insuficientes (c cc : Cuenta)
    (h1 : c.tipo ≠ TipoCuenta.tarjeta_credito) (h2 : c.saldo_actual = 10000)
    (h3 : cc.tipo = TipoCuenta.tarjeta_credito) (h4 : cc.saldo_actual = 10000) :
    actualizar_saldo c 15000 .egreso = Except.error "Saldo insuficiente" ∧
    actualizar_saldo cc 15000 .egreso = Except.ok { cc with saldo_actual := -5000 } ∧
    (∀ t l, t.tipo = .egreso → t.monto = 15000 →
      opInsert t ⟨c, l⟩ =
        Except.error "El saldo actual no puede ser negativo para este tipo de cuenta") ∧
    (∀ t l, t.tipo = .egreso → t.monto = 15000 →
      opInsert t ⟨cc, l⟩ = Except.ok ⟨{ cc with saldo_actual := -5000 }, t :: l⟩) := by
  refine ⟨?_, ?_, ?_, ?_⟩
  · simp [actualizar_saldo, tiene_saldo_suficiente, h1, h2]
  · simp [actualizar_saldo, tiene_saldo_suficiente, h3, h4]
  · intro t l ht hm
    simp [opInsert, validate_monto, montoLimite, hm, ht, h1, h2]
  · intro t l ht hm
    simp [opInsert, validate_monto, montoLimite, hm, ht, h3, h4]

/-- C2 witness at a concrete bank account and a concrete credit card. -/
theorem c2_fondos_insuficientes_witness :
    actualizar_saldo ⟨TipoCuenta.banco, 10000, 10000⟩ 15000 .egreso =
      Except.error "Saldo insuficiente" ∧
    actualizar_saldo ⟨TipoCuenta.tarjeta_credito, 10000, 10000⟩ 15000 .egreso =
      Except.ok ⟨TipoCuenta.tarjeta_credito, 10000, -5000⟩ :=
  ⟨(c2_fondos_insuficientes ⟨TipoCuenta.banco, 10000, 10000⟩
      ⟨TipoCuenta.tarjeta_credito, 10000, 10000⟩ (by decide) rfl rfl rfl).1,
   (c2_fondos_insuficientes ⟨TipoCuenta.banco, 10000, 10000⟩
      ⟨TipoCuenta.tarjeta_credito, 10000, 10000⟩ (by decide) rfl rfl rfl).2.1⟩

/-- C3: on every valid date, `_calcular_proxima_fecha` returns date + 1 day
for daily, + 7 days for weekly, + 15 days for biweekly; for monthly the next
month (rolling the year on December), the day clamped with `min` to the last
day of the target month, and the result is again a valid date; for yearly
the same month and day in the next year except that Feb 29 becomes Feb 28
when the target year is not a leap year, again yielding a valid date. -/
theorem c3_proxima_fecha (d : Fecha) (h : d.valida) :
    calcular_proxima_fecha (some .diaria) d = addDays d 1 ∧
    calcular_proxima_fecha (some .semanal) d = addDays d 7 ∧
    calcular_proxima_fecha (some .quincenal) d = addDays d 15 ∧
    calcular_proxima_fecha (some .mensual) d =
      ⟨(if d.mes = 12 then d.anio + 1 else d.anio),
       (if d.mes = 12 then 1 else d.mes + 1),
       min d.dia (monthrange (if d.mes = 12 then d.anio + 1 else d.anio)
         (if d.mes = 12 then 1 else d.mes + 1))⟩ ∧
    (calcular_proxima_fecha (some .mensual) d).valida ∧
    calcular_proxima_fecha (some .anual) d =
      (if d.mes = 2 ∧ d.dia = 29 ∧ isleap (d.anio + 1) = false
       then ⟨d.anio + 1, 2, 28⟩ else ⟨d.anio + 1, d.mes, d.dia⟩) ∧
    (calcular_proxima_fecha (some .anual) d).valida := by
  obtain ⟨hm1, hm2, hd1, hd2⟩ := h
  refine ⟨rfl, rfl, rfl, rfl, ?_, rfl, ?_⟩
  · unfold calcular_proxima_fecha Fecha.valida
    have hge := monthrange_ge_28 (if d.mes = 12 then d.anio + 1 else d.anio)
      (if d.mes = 12 then 1 else d.mes + 1)
    by_cases h12 : d.mes = 12 <;> simp [h12] at hge ⊢ <;> omega
  · unfold calcular_proxima_fecha Fecha.valida
    by_cases hc : d.mes = 2 ∧ d.dia = 29 ∧ isleap (d.anio + 1) = false
    · have hge := monthrange_ge_28 (d.anio + 1) 2
      simp [hc]
      omega
    · simp [hc]
      refine ⟨hm1, hm2, hd1, ?_⟩
      by_cases hf : d.mes = 2
      · rw [hf] at hd2 ⊢
        rw [monthrange_feb] at hd2 ⊢
        cases hl : isleap (d.anio + 1) with
        | true => cases hl2 : isleap d.anio <;> simp [hl, hl2] at hd2 ⊢ <;> omega
        | false =>
            have hne : d.dia ≠ 29 := by
              intro hd29
              exact hc ⟨hf, hd29, hl⟩
            cases hl2 : isleap d.anio <;> simp [hl, hl2] at hd2 ⊢ <;> omega
      · rw [monthrange_indep (d.anio + 1) d.anio d.mes hf]
        exact hd2

/-- C3 witness at the valid date Jan 31, 2025 (monthly clamps to Feb 28). -/
theorem c3_proxima_fecha_witness :
    Fecha.valida ⟨2025, 1, 31⟩ ∧ (calcular_proxima_fecha (some .mensual) ⟨2025, 1, 31⟩).valida :=
  ⟨by decide, (c3_proxima_fecha ⟨2025, 1, 31⟩ (by decide)).2.2.2.2.1⟩

section PreservacionDelInvariante

/-- The signed amount of a transaction: positive for an income, negative for
an expense — the direction the listeners move the balance by on insert. -/
def montoFirmado (t : Transaccion) : Int :=
  match t.tipo with
  | .ingreso => t.monto
  | .egreso => -t.monto

theorem opInsert_ok (t : Transaccion) (s s2 : Estado) (h : opInsert t s = Except.ok s2) :
    s2.cuenta.tipo = s.cuenta.tipo ∧
    s2.cuenta.saldo_inicial = s.cuenta.saldo_inicial ∧
    s2.ledger = t :: s.ledger ∧
    s2.cuenta.saldo_actual = s.cuenta.saldo_actual + montoFirmado t := by
  unfold opInsert at h
  split at h
  · cases h
  · cases ht : t.tipo with
    | ingreso =>
        rw [ht] at h
        by_cases hc : s.cuenta.tipo ≠ TipoCuenta.tarjeta_credito ∧
            s.cuenta.saldo_actual + t.monto < 0
        · rw [if_pos hc] at h
          cases h
        · rw [if_neg hc] at h
          cases h
          exact ⟨rfl, rfl, rfl, by simp [montoFirmado, ht]⟩
    | egreso =>
        rw [ht] at h
        by_cases hc : s.cuenta.tipo ≠ TipoCuenta.tarjeta_credito ∧
            s.cuenta.saldo_actual - t.monto < 0
        · rw [if_pos hc] at h
          cases h
        · rw [if_neg hc] at h
          cases h
          refine ⟨rfl, rfl, rfl, ?_⟩
          simp [montoFirmado, ht]
          omega

theorem opDelete_ok (tid : Nat) (s s2 : Estado) (h : opDelete tid s = Except.ok s2) :
    ∃ t, s.ledger.find? (fun x => decide (x.id = tid)) = some t ∧
      s2.cuenta.tipo = s.cuenta.tipo ∧
      s2.cuenta.saldo_inicial = s.cuenta.saldo_inicial ∧
      s2.ledger = s.ledger.eraseP (fun x => decide (x.id = tid)) ∧
      s2.cuenta.saldo_actual = s.cuenta.saldo_actual - montoFirmado t := by
  unfold opDelete at h
  split at h
  · cases h
  next t hf =>
    refine ⟨t, hf, ?_⟩
    cases ht : t.tipo with
    | ingreso =>
        rw [ht] at h
        by_cases hc : s.cuenta.tipo ≠ TipoCuenta.tarjeta_credito ∧
            s.cuenta.saldo_actual - t.monto < 0
        · rw [if_pos hc] at h
          cases h
        · rw [if_neg hc] at h
          cases h
          exact ⟨rfl, rfl, rfl, by simp [montoFirmado, ht]⟩
    | egreso =>
        rw [ht] at h
        by_cases hc : s.cuenta.tipo ≠ TipoCuenta.tarjeta_credito ∧
            s.cuenta.saldo_actual + t.monto < 0
        · rw [if_pos hc] at h
          cases h
        · rw [if_neg hc] at h
          cases h
          refine ⟨rfl, rfl, rfl, ?_⟩
          simp [montoFirmado, ht]

theorem opUpdate_ok (tid : Nat) (nuevo : Transaccion) (s s2 : Estado)
    (h : opUpdate tid nuevo s = Except.ok s2) :
    s2.cuenta = s.cuenta ∧
    s2.ledger = s.ledger.map (fun t => if t.id = tid then { nuevo with id := tid } else t) := by
  unfold opUpdate at h
  split at h
  · cases h
  · split at h
    · cases h
    · cases h
      exact ⟨rfl, rfl⟩

theorem paso_preserva_invariante (s : Estado) (op : Op)
    (h : Invariante s) (hs : OpSegura s op) : Invariante (paso s op) := by
  unfold paso
  cases hres : aplicarOp op s with
  | error e => exact h
  | ok s2 =>
      show Invariante s2
      cases op with
      | crear t =>
          obtain ⟨-, he1, he2, he3⟩ := opInsert_ok t s s2 hres
          unfold Invariante at h ⊢
          rw [he1, he2, sumaMontos_cons, sumaMontos_cons]
          cases ht : t.tipo <;> simp [montoFirmado, ht] at he3 ⊢ <;> omega
      | modificar tid nuevo =>
          obtain ⟨he1, he2⟩ := opUpdate_ok tid nuevo s s2 hres
          have hcongr : ∀ tipo, sumaMontos tipo
              (s.ledger.map fun t => if t.id = tid then { nuevo with id := tid } else t) =
              sumaMontos tipo s.ledger := by
            intro tipo
            apply sumaMontos_map_congr
            intro t htl
            by_cases hid : t.id = tid
            · have hsafe := hs t htl hid
              simp [hid]
              exact ⟨hsafe.2.symm, hsafe.1.symm⟩
            · simp [hid]
          unfold Invariante at h ⊢
          rw [he1, he2, hcongr, hcongr]
          exact h
      | eliminar tid =>
          obtain ⟨t, hf, -, he1, he2, he3⟩ := opDelete_ok tid s s2 hres
          have hs1 := sumaMontos_eraseP .ingreso (fun x => decide (x.id = tid)) s.ledger t hf
          have hs2 := sumaMontos_eraseP .egreso (fun x => decide (x.id = tid)) s.ledger t hf
          unfold Invariante at h ⊢
          rw [he1, he2]
          cases ht : t.tipo <;> simp [montoFirmado, ht] at he3 hs1 hs2 <;> omega

theorem secuencia_segura_take (ops : List Op) (s : Estado) (hs : SecuenciaSegura s ops)
    (n : Nat) : SecuenciaSegura s (ops.take n) := by
  induction ops generalizing s n with
  | nil => simpa using SecuenciaSegura.nil s
  | cons op ops ih =>
      cases n with
      | zero => exact SecuenciaSegura.nil s
      | succ n =>
          cases hs with
          | cons _ _ _ h1 h2 => exact SecuenciaSegura.cons _ _ _ h1 (ih _ h2 n)

theorem invariante_ejecutar (ops : List Op) (s : Estado) (h : Invariante s)
    (hs : SecuenciaSegura s ops) : Invariante (ejecutar s ops) := by
  induction ops generalizing s with
  | nil => exact h
  | cons op ops ih =>
      cases hs with
      | cons _ _ _ h1 h2 => exact ih _ (paso_preserva_invariante s op h h1) h2

end PreservacionDelInvariante

/-- C1 counterexample: on the bank account of `estadoBanco0`, inserting the
income of 100.00 keeps the invariant, then editing its amount down to 50.00
completes successfully (`esOk`), yet afterwards the cached balance (still
100.00) no longer equals `saldo_inicial + ingresos - egresos` (50.00): the
`after_update` listener performs no balance adjustment. -/
theorem c1_counterexample :
    Invariante (paso estadoBanco0 (Op.crear tIngreso100)) ∧
    esOk (aplicarOp (Op.modificar 1 tIngreso50) (paso estadoBanco0 (Op.crear tIngreso100))) =
      true ∧
    ¬ Invariante (paso (paso estadoBanco0 (Op.crear tIngreso100)) (Op.modificar 1 tIngreso50)) := by
  refine ⟨by decide, by decide, by decide⟩

/-- C1 amended: the balance invariant
`saldo_actual = saldo_inicial + Σ ingresos - Σ egresos` holds after every
prefix of a sequence of create and delete operations, and of modifications
that change neither the amount nor the type of the targeted transaction
(`OpSegura`); a modification that changes the amount or the type breaks it,
because the `after_update` listener only logs a warning. -/
theorem c1_invariante_de_saldo (ops : List Op) (s : Estado) (h : Invariante s)
    (hs : SecuenciaSegura s ops) (n : Nat) :
    Invariante (ejecutar s (ops.take n)) :=
  invariante_ejecutar (ops.take n) s h (secuencia_segura_take ops s hs n)

/-- C1 witness: insert the 100.00 income into the empty bank account, then
delete it; the invariant holds after the whole sequence. -/
theorem c1_invariante_de_saldo_witness :
    Invariante estadoBanco0 ∧
    Invariante (ejecutar estadoBanco0 ([Op.crear tIngreso100, Op.eliminar 1].take 2)) :=
  ⟨by decide,
   c1_invariante_de_saldo [Op.crear tIngreso100, Op.eliminar 1] estadoBanco0 (by decide)
     (SecuenciaSegura.cons _ _ _ trivial
       (SecuenciaSegura.cons _ _ _ trivial (SecuenciaSegura.nil _))) 2⟩

/-- C4 counterexample: editing the amount of the recorded 100.00 income down
to 50.00 on `estadoBanco1` completes successfully, yet the account balance
stays 100.00, while `apply(old, -1)` followed by `apply(new, +1)` — the
behaviour the claim describes — would give 50.00: `on_update` performs no
balance adjustment at all, so there is no two-step unit whose first half
could be rolled back. -/
theorem c4_counterexample :
    esOk (aplicarOp (Op.modificar 1 tIngreso50) estadoBanco1) = true ∧
    (paso estadoBanco1 (Op.modificar 1 tIngreso50)).cuenta.saldo_actual = 10000 ∧
    on_update_spec estadoBanco1.cuenta.saldo_actual tIngreso100 tIngreso50 = 5000 ∧
    (10000 : Int) ≠ 5000 := by
  refine ⟨by decide, by decide, by decide, by decide⟩

/-- C4 amended: an update never moves the account balance: whether the
modification succeeds or fails, the account after `on_update` is exactly the
account before it — the `after_update` listener only logs that recalculating
is recommended, it neither applies the old transaction with direction -1 nor
the new one with +1. -/
theorem c4_update_sin_ajuste (tid : Nat) (nuevo : Transaccion) (s : Estado) :
    (paso s (Op.modificar tid nuevo)).cuenta = s.cuenta := by
  unfold paso aplicarOp opUpdate
  cases hv : validate_monto (some nuevo.monto) with
  | error e => simp [hv]
  | ok m =>
      cases hf : s.ledger.find? (fun t => decide (t.id = tid)) with
      | none => simp [hv, hf]
      | some t0 => simp [hv, hf]

/-- A monthly template carrying an end date far in the future. -/
def tmplMensualConFin : Transaccion :=
  { tmplMensual with fecha_fin_recurrencia := some ⟨2030, 12, 31⟩ }

/-- C5 counterexample: expanding the Jan 31, 2025 monthly template twice
(the store after the first expansion feeding the second) produces children
dated Feb 28 and then Feb 28 again — the template's own date never advances,
so the second expansion repeats Feb 28, 2025 instead of the claimed
Mar 31. -/
theorem c5_counterexample :
    ((generar_proxima_recurrencia true tmplMensual
          (generar_proxima_recurrencia true tmplMensual estadoRec0).2).2.transacciones.map
        (fun x => x.fecha_transaccion))
      = [⟨2025, 2, 28⟩, ⟨2025, 2, 28⟩, ⟨2025, 1, 31⟩] ∧
    (⟨2025, 2, 28⟩ : Fecha) ≠ ⟨2025, 3, 31⟩ := by
  refine ⟨by decide, by decide⟩

/-- C5 amended: a monthly template dated Jan 31 of year `y` expands to
Feb 29 of `y` when `y` is a leap year and to Feb 28 otherwise; because the
template's date is never advanced by the expansion, the following expansion
(run on the store the first one produced) yields a child with that same
February date again, not Mar 31. -/
theorem c5_reclamp_no_ocurre (y : Nat) (t : Transaccion) (st : EstadoRec)
    (h1 : t.recurrente = true) (h2 : t.frecuencia_recurrencia = some .mensual)
    (h3 : t.fecha_transaccion = ⟨y, 1, 31⟩) (h4 : t.fecha_fin_recurrencia = none) :
    calcular_proxima_fecha t.frecuencia_recurrencia t.fecha_transaccion =
      (if isleap y then (⟨y, 2, 29⟩ : Fecha) else ⟨y, 2, 28⟩) ∧
    (generar_proxima_recurrencia true t st).1 =
      Except.ok (some (transaccionHija t
        (if isleap y then ⟨y, 2, 29⟩ else ⟨y, 2, 28⟩) st.nextId)) ∧
    (generar_proxima_recurrencia true t (generar_proxima_recurrencia true t st).2).1 =
      Except.ok (some (transaccionHija t (if isleap y then ⟨y, 2, 29⟩ else ⟨y, 2, 28⟩)
        ((generar_proxima_recurrencia true t st).2).nextId)) := by
  have hrec : t.es_recurrente = true := by
    simp [Transaccion.es_recurrente, h1, h2]
  have hfin : recurrenciaFinalizada t = false := by
    simp [recurrenciaFinalizada, h4]
  have hprox : calcular_proxima_fecha t.frecuencia_recurrencia t.fecha_transaccion =
      (if isleap y then (⟨y, 2, 29⟩ : Fecha) else ⟨y, 2, 28⟩) := by
    rw [h2, h3]
    unfold calcular_proxima_fecha
    cases hl : isleap y <;> simp [monthrange, hl]
  refine ⟨hprox, ?_, ?_⟩
  · simp [generar_proxima_recurrencia, hrec, hfin, hprox]
  · simp [generar_proxima_recurrencia, hrec, hfin, hprox]

/-- C5 witness at year 2025 (not a leap year): both expansions give
Feb 28, 2025. -/
theorem c5_reclamp_no_ocurre_witness :
    calcular_proxima_fecha tmplMensual.frecuencia_recurrencia tmplMensual.fecha_transaccion =
      (if isleap 2025 then (⟨2025, 2, 29⟩ : Fecha) else ⟨2025, 2, 28⟩) ∧
    (generar_proxima_recurrencia true tmplMensual estadoRec0).1 =
      Except.ok (some (transaccionHija tmplMensual
        (if isleap 2025 then ⟨2025, 2, 29⟩ else ⟨2025, 2, 28⟩) estadoRec0.nextId)) ∧
    (generar_proxima_recurrencia true tmplMensual
        (generar_proxima_recurrencia true tmplMensual estadoRec0).2).1 =
      Except.ok (some (transaccionHija tmplMensual
        (if isleap 2025 then ⟨2025, 2, 29⟩ else ⟨2025, 2, 28⟩)
        ((generar_proxima_recurrencia true tmplMensual estadoRec0).2).nextId)) :=
  c5_reclamp_no_ocurre 2025 tmplMensual estadoRec0 rfl rfl rfl rfl

/-- C6 counterexample: expanding the same monthly template twice for the
same due date leaves two children with the parent reference 1 and the date
Feb 28, 2025 in the store — two, not the single child the claim promises. -/
theorem c6_counterexample :
    ((generar_proxima_recurrencia true tmplMensual
          (generar_proxima_recurrencia true tmplMensual estadoRec0).2).2.transacciones.countP
        (fun x => decide (x.transaccion_padre_id = some 1 ∧
          x.fecha_transaccion = ⟨2025, 2, 28⟩)))
      = 2 ∧ (2 : Nat) ≠ 1 := by
  refine ⟨by decide, by decide⟩

/-- C6 amended: the expansion performs no existing-child check, so running
it twice on the same template (whose date never changes, so both runs target
the same due date) adds exactly two children with that parent reference and
that target date to however many the store already had. -/
theorem c6_expansion_duplica (t : Transaccion) (st : EstadoRec)
    (h1 : t.es_recurrente = true) (h2 : recurrenciaFinalizada t = false) :
    ((generar_proxima_recurrencia true t
          (generar_proxima_recurrencia true t st).2).2.transacciones.countP
        (fun x => decide (x.transaccion_padre_id = some t.id ∧
          x.fecha_transaccion = calcular_proxima_fecha t.frecuencia_recurrencia
            t.fecha_transaccion)))
      = (st.transacciones.countP
          (fun x => decide (x.transaccion_padre_id = some t.id ∧
            x.fecha_transaccion = calcular_proxima_fecha t.frecuencia_recurrencia
              t.fecha_transaccion))) + 2 := by
  simp [generar_proxima_recurrencia, h1, h2, List.countP_cons, transaccionHija]

/-- C6 witness at the concrete monthly template and store. -/
theorem c6_expansion_duplica_witness :
    tmplMensual.es_recurrente = true ∧
    ((generar_proxima_recurrencia true tmplMensual
          (generar_proxima_recurrencia true tmplMensual estadoRec0).2).2.transacciones.countP
        (fun x => decide (x.transaccion_padre_id = some tmplMensual.id ∧
          x.fecha_transaccion = calcular_proxima_fecha tmplMensual.frecuencia_recurrencia
            tmplMensual.fecha_transaccion)))
      = (estadoRec0.transacciones.countP
          (fun x => decide (x.transaccion_padre_id = some tmplMensual.id ∧
            x.fecha_transaccion = calcular_proxima_fecha tmplMensual.frecuencia_recurrencia
              tmplMensual.fecha_transaccion))) + 2 :=
  ⟨by decide, c6_expansion_duplica tmplMensual estadoRec0 (by decide) (by decide)⟩

/-- C7 counterexample: the child created for the monthly template that has
an end date does not copy every non-excepted field: its notes are replaced
by an auto-generated provenance note and the template's recurrence end date
is not carried over, two exceptions the claim does not allow. -/
theorem c7_counterexample :
    (generar_proxima_recurrencia true tmplMensualConFin ⟨[tmplMensualConFin], 2⟩).1 =
      Except.ok (some (transaccionHija tmplMensualConFin ⟨2025, 2, 28⟩ 2)) ∧
    (transaccionHija tmplMensualConFin ⟨2025, 2, 28⟩ 2).notas ≠ tmplMensualConFin.notas ∧
    (transaccionHija tmplMensualConFin ⟨2025, 2, 28⟩ 2).fecha_fin_recurrencia ≠
      tmplMensualConFin.fecha_fin_recurrencia := by
  refine ⟨by decide, by decide, by decide⟩

/-- C7 amended: when the computed next date exceeds a set end date the
expansion creates nothing and returns nothing; otherwise it creates and
returns a child whose user, account, category, type, amount, description,
time of day and tags are copied from the template, whose recurrence flag is
false, frequency absent, date the computed next date and parent reference
the template — and additionally (beyond the claim's exception list) the
recurrence end date is not copied and the notes are replaced by an
auto-generated provenance note.  A child created this way, carrying a parent
reference, is never flagged recurrent. -/
theorem c7_expansion_campos (t : Transaccion) (st : EstadoRec)
    (h1 : t.es_recurrente = true) :
    (recurrenciaFinalizada t = true →
      generar_proxima_recurrencia true t st = (Except.ok none, st)) ∧
    (recurrenciaFinalizada t = false →
      ∃ c, (generar_proxima_recurrencia true t st).1 = Except.ok (some c) ∧
        (generar_proxima_recurrencia true t st).2 = ⟨c :: st.transacciones, st.nextId + 1⟩ ∧
        c.usuario_id = t.usuario_id ∧ c.cuenta_id = t.cuenta_id ∧
        c.categoria_id = t.categoria_id ∧ c.tipo = t.tipo ∧ c.monto = t.monto ∧
        c.descripcion = t.descripcion ∧ c.hora_transaccion = t.hora_transaccion ∧
        c.etiquetas = t.etiquetas ∧
        c.recurrente = false ∧ c.frecuencia_recurrencia = none ∧
        c.fecha_transaccion =
          calcular_proxima_fecha t.frecuencia_recurrencia t.fecha_transaccion ∧
        c.transaccion_padre_id = some t.id ∧
        c.fecha_fin_recurrencia = none ∧
        c.notas = some ("Generada automaticamente desde recurrencia " ++ toString t.id)) := by
  constructor
  · intro hfin
    simp [generar_proxima_recurrencia, h1, hfin]
  · intro hfin
    refine ⟨transaccionHija t
      (calcular_proxima_fecha t.frecuencia_recurrencia t.fecha_transaccion) st.nextId,
      ?_, ?_, rfl, rfl, rfl, rfl, rfl, rfl, rfl, rfl, rfl, rfl, rfl, rfl, rfl, rfl⟩
    · simp [generar_proxima_recurrencia, h1, hfin]
    · simp [generar_proxima_recurrencia, h1, hfin]

/-- C7 witness at the monthly template: the end date is not yet exceeded, so
a child with the listed fields exists. -/
theorem c7_expansion_campos_witness :
    tmplMensual.es_recurrente = true ∧ recurrenciaFinalizada tmplMensual = false ∧
    (∃ c, (generar_proxima_recurrencia true tmplMensual estadoRec0).1 = Except.ok (some c) ∧
      (generar_proxima_recurrencia true tmplMensual estadoRec0).2 =
        ⟨c :: estadoRec0.transacciones, estadoRec0.nextId + 1⟩ ∧
      c.usuario_id = tmplMensual.usuario_id ∧ c.cuenta_id = tmplMensual.cuenta_id ∧
      c.categoria_id = tmplMensual.categoria_id ∧ c.tipo = tmplMensual.tipo ∧
      c.monto = tmplMensual.monto ∧
      c.descripcion = tmplMensual.descripcion ∧
      c.hora_transaccion = tmplMensual.hora_transaccion ∧
      c.etiquetas = tmplMensual.etiquetas ∧
      c.recurrente = false ∧ c.frecuencia_recurrencia = none ∧
      c.fecha_transaccion =
        calcular_proxima_fecha tmplMensual.frecuencia_recurrencia
          tmplMensual.fecha_transaccion ∧
      c.transaccion_padre_id = some tmplMensual.id ∧
      c.fecha_fin_recurrencia = none ∧
      c.notas = some ("Generada automaticamente desde recurrencia "
        ++ toString tmplMensual.id)) :=
  ⟨by decide, by decide,
   (c7_expansion_campos tmplMensual estadoRec0 (by decide)).2 (by decide)⟩

/-- C8 counterexample: a persistence failure while expanding the recurring
monthly template is caught inside the method: the call returns successfully
with no transaction (`Except.ok none`) and the store untouched; no error
reaches the caller, contradicting the claim that it is raised. -/
theorem c8_counterexample :
    tmplMensual.es_recurrente = true ∧
    generar_proxima_recurrencia false tmplMensual estadoRec0 = (Except.ok none, estadoRec0) ∧
    ¬ ∃ e, (generar_proxima_recurrencia false tmplMensual estadoRec0).1 = Except.error e := by
  refine ⟨by decide, by decide, ?_⟩
  rintro ⟨e, he⟩
  rw [show (generar_proxima_recurrencia false tmplMensual estadoRec0).1 = Except.ok none
    from by decide] at he
  exact Except.noConfusion he

/-- C8 amended: when child creation fails, the template and the store are
indeed left untouched (the template stays active and retryable), but the
error is silently caught, logged, and turned into a successful no-transaction
return — it is never raised to the caller. -/
theorem c8_fallo_silencioso (t : Transaccion) (st : EstadoRec) :
    generar_proxima_recurrencia false t st = (Except.ok none, st) := by
  unfold generar_proxima_recurrencia
  by_cases h1 : t.es_recurrente = false
  · simp [h1]
  · by_cases h2 : recurrenciaFinalizada t = true <;> simp [h1, h2]

/-- C9 counterexample: on a template flagged recurrent but carrying no
frequency, the expansion returns successfully with no transaction and an
untouched store, and the next-date computation falls through to the
template's own date; no `InvalidRecurrenceError` (or any error) is raised. -/
theorem c9_counterexample :
    tmplSinFrecuencia.recurrente = true ∧
    tmplSinFrecuencia.frecuencia_recurrencia = none ∧
    generar_proxima_recurrencia true tmplSinFrecuencia estadoRec0 =
      (Except.ok none, estadoRec0) ∧
    calcular_proxima_fecha tmplSinFrecuencia.frecuencia_recurrencia
        tmplSinFrecuencia.fecha_transaccion = tmplSinFrecuencia.fecha_transaccion ∧
    ¬ ∃ e, (generar_proxima_recurrencia true tmplSinFrecuencia estadoRec0).1 =
      Except.error e := by
  refine ⟨by decide, by decide, by decide, by decide, ?_⟩
  rintro ⟨e, he⟩
  rw [show (generar_proxima_recurrencia true tmplSinFrecuencia estadoRec0).1 = Except.ok none
    from by decide] at he
  exact Except.noConfusion he

/-- C9 amended: a template flagged recurrent with no frequency is simply
treated as non-recurring: the expansion returns no transaction and leaves
the store unchanged, and the next-date computation returns the template's
own date unchanged; no error of any kind is produced (and an unrecognized
frequency value cannot even be stored, the enum validator rejects it). -/
theorem c9_sin_error_de_recurrencia (b : Bool) (t : Transaccion) (st : EstadoRec)
    (h : t.frecuencia_recurrencia = none) :
    generar_proxima_recurrencia b t st = (Except.ok none, st) ∧
    calcular_proxima_fecha t.frecuencia_recurrencia t.fecha_transaccion =
      t.fecha_transaccion := by
  constructor
  · have hrec : t.es_recurrente = false := by
      simp [Transaccion.es_recurrente, h]
    simp [generar_proxima_recurrencia, hrec]
  · rw [h]
    rfl

/-- C9 witness at the frequency-less recurring template. -/
theorem c9_sin_error_de_recurrencia_witness :
    generar_proxima_recurrencia true tmplSinFrecuencia estadoRec0 =
      (Except.ok none, estadoRec0) ∧
    calcular_proxima_fecha tmplSinFrecuencia.frecuencia_recurrencia
      tmplSinFrecuencia.fecha_transaccion = tmplSinFrecuencia.fecha_transaccion :=
  c9_sin_error_de_recurrencia true tmplSinFrecuencia estadoRec0 rfl

end Finanzas
